import Mathlib

/-!
Shallow embedding of the MeteoraRebalancer (src/index.ts, src/utils/logger.ts)
of the meteora-liquidity-rebalancer repository.

Modelling conventions:
- TypeScript numbers are modelled as exact rationals; floating-point rounding
  is out of scope of the embedding.
- Bin indices are integers.
- External collaborators (wallet, Jupiter swap, Meteora protocol, DLMM API)
  are modelled as environment records supplying the outcome of each call, in
  the order the method under study performs them.  Calls wrapped in
  MeteoraRebalancer.retry are given their net outcome (the value returned, or
  the error the retry wrapper finally surfaced); the retry wrapper itself is
  modelled separately and exactly, over an attempt-indexed oracle.
  The position queries (retryGetPositions) are modelled exactly, over an
  attempt-indexed oracle, because their empty-list retry semantics matters.
- Observable effects (balanceLogger calls, sendAlert calls, ledger-mutating
  collaborator calls) are collected in an Action trace.  Bare console.log and
  console.error calls and real-time delays are not modelled.
- Errors carry the two message properties the source inspects by substring
  matching: whether the message contains the text "insufficient funds" and
  whether it contains "No positions found in this pool".
- The poolAddress emptiness checks in rebalance() and rebalancePosition() are
  dead code in any actual run (src/index.ts refuses to start when
  METEORA_POOL_ADDRESS is unset), so they are not modelled.
-/

set_option maxHeartbeats 1600000

namespace Rebal

/-- Static pool facts resolved from the DLMM API (getPoolDetails). -/
structure PoolDetails where
  binStep : ℚ
  assetAMintAddress : String
  assetBMintAddress : String
  assetASymbol : String
  assetBSymbol : String
deriving Repr, DecidableEq

/-- Point-in-time observation of the pool's active bin (getActiveBin). -/
structure ActiveBin where
  binId : Int
  pricePerToken : ℚ
deriving Repr, DecidableEq

/-- The per-position data the source reads back from getPositionsFromPool. -/
structure PositionData where
  lowerBinId : Int
  upperBinId : Int
deriving Repr, DecidableEq

/-- An error raised by an external collaborator.  The source only inspects an
error's message for two substrings, so the model carries those two facts plus
an arbitrary tag distinguishing otherwise-equal errors. -/
structure ExtErr where
  insufficientFundsMsg : Bool
  noPositionsMsg : Bool
  tag : Nat
deriving Repr, DecidableEq

/-- Errors that can surface from the rebalancer's own methods. -/
inductive Err where
  | ext (e : ExtErr)
  | insufficientFunds
  | insufficientFundsForPositionFees
  | poolDetailsFailed
  | poolDetailsMissing
deriving Repr, DecidableEq

/-- Whether the error's message contains "No positions found in this pool".
Only an external error can; none of the rebalancer's own messages do. -/
def Err.mentionsNoPositions : Err → Bool
  | .ext e => e.noPositionsMsg
  | _ => false

/-- Alert severities (AlertType). -/
inductive Sev where
  | info
  | warning
  | error
deriving Repr, DecidableEq

/-- Which alert message was sent (sendAlert call sites in the sources). -/
inductive AlertMsg where
  | getPoolDetailsFailed
  | lowNativeBalance
  | rangeClipped
  | insufficientNativeForPositionFees
  | rebalanceError (e : Err)
deriving Repr, DecidableEq

/-- Direction of a rebalancing swap. -/
inductive SwapDir where
  | aToB
  | bToA
deriving Repr, DecidableEq

/-- Which balanceLogger line was written. -/
inductive LogTag where
  | outOfRange (binId lower upper : Int)
  | swappedToRebalance (dir : SwapDir) (inAmt outAmt : ℚ)
  | liquidityRemoved
  | rewardsClaimed
  | withdrew (a b : ℚ)
  | liquidityAdded
  | totalBalances
deriving Repr, DecidableEq

/-- Observable effects of a method run: balanceLogger writes, alerts, and
ledger-mutating collaborator calls. -/
inductive Action where
  | alert (sev : Sev) (msg : AlertMsg)
  | logAction (tag : LogTag)
  | logBalances (tag : LogTag) (a b : ℚ)
  | logPrice (p : ℚ)
  | swapExec (dir : SwapDir) (inputAmt outputAmt : ℚ)
  | removeLiquidityExec
  | addLiquidityExec (amtA amtB : ℚ) (range : Option Int)
deriving Repr, DecidableEq

/-- The mutable fields of the MeteoraRebalancer instance. -/
structure RebState where
  poolDetails : Option PoolDetails
  currLowerBinId : Int
  currUpperBinId : Int
  meteoraRangeInterval : Option Int
deriving Repr, DecidableEq

/-- Field values installed by the MeteoraRebalancer constructor. -/
def RebState.initial : RebState :=
  { poolDetails := none, currLowerBinId := 0, currUpperBinId := 0,
    meteoraRangeInterval := none }

/-- METERORA_MAX_BINS_PER_SIDE = 34 (name kept as spelled in the source). -/
def METERORA_MAX_BINS_PER_SIDE : Int := 34

/-- NATIVE_TOKEN_FEE_BUFFER default 0.1. -/
def NATIVE_TOKEN_FEE_BUFFER : ℚ := 1 / 10

/-- NATIVE_TOKEN_MIN_BALANCE default 0.01. -/
def NATIVE_TOKEN_MIN_BALANCE : ℚ := 1 / 100

/-- Case-insensitive test of the source, symbol.toLowerCase() === 'sol',
spelled over the symbol's character list so it evaluates by kernel
reduction. -/
def isSolSymbol (s : String) : Bool :=
  s.data.map Char.toLower = ['s', 'o', 'l']

/-- Per-asset part of getUsableBalances: the asset whose symbol lowercases to
"sol" gets the fee buffer subtracted, floored at zero; others pass through. -/
def usableAmount (symbol : String) (raw : ℚ) : ℚ :=
  if isSolSymbol symbol then max 0 (raw - NATIVE_TOKEN_FEE_BUFFER) else raw

/-- getUsableBalances: raw wallet reads of asset A and asset B mapped to
usable amounts (the source returns them keyed by symbol; the pair keeps the
A/B order). -/
def getUsableBalances (d : PoolDetails) (rawA rawB : ℚ) : ℚ × ℚ :=
  (usableAmount d.assetASymbol rawA, usableAmount d.assetBSymbol rawB)

/-- verifyNativeTokenBalanceForFees: warn (and only warn) when the native
balance is below NATIVE_TOKEN_MIN_BALANCE; the method always returns. -/
def verifyNativeTokenBalanceForFees (native : ℚ) : List Action :=
  if native < NATIVE_TOKEN_MIN_BALANCE then
    [Action.alert Sev.warning AlertMsg.lowNativeBalance]
  else []

/-- verifyNativeTokenBufferForPositions: alert at error level and throw when
the raw native balance is below NATIVE_TOKEN_FEE_BUFFER. -/
def verifyNativeTokenBufferForPositions (native : ℚ) :
    Except Err Unit × List Action :=
  if native < NATIVE_TOKEN_FEE_BUFFER then
    (Except.error Err.insufficientFundsForPositionFees,
     [Action.alert Sev.error AlertMsg.insufficientNativeForPositionFees])
  else (Except.ok (), [])

/-- Outcome of the retry helper: a value, the distinguished rethrown
"Insufficient funds" error, or exhaustion surfacing the last observed error
(none when the loop never ran, i.e. retries = 0 and lastError is undefined). -/
inductive RetryOutcome (α : Type) where
  | ok (v : α)
  | fatalInsufficientFunds
  | exhausted (last : Option ExtErr)
deriving Repr, DecidableEq

/-- Loop of MeteoraRebalancer.retry: fn is the attempt-indexed oracle giving
each invocation's outcome; remaining counts attempts left, attempt is the
next attempt index and last the last observed error.  Returns the outcome
together with the total number of invocations performed. -/
def retryGo {α : Type} (fn : Nat → Except ExtErr α) :
    Nat → Nat → Option ExtErr → RetryOutcome α × Nat
  | 0, attempt, last => (RetryOutcome.exhausted last, attempt)
  | remaining + 1, attempt, last =>
    match fn attempt with
    | Except.ok v => (RetryOutcome.ok v, attempt + 1)
    | Except.error e =>
      if e.insufficientFundsMsg then (RetryOutcome.fatalInsufficientFunds, attempt + 1)
      else retryGo fn remaining (attempt + 1) (some e)

/-- MeteoraRebalancer.retry with a given retry count (default 5 in source);
the fixed 5s inter-attempt delay is untimed in the model. -/
def retry {α : Type} (fn : Nat → Except ExtErr α) (retries : Nat) :
    RetryOutcome α × Nat :=
  retryGo fn retries 0 none

/-- Loop of retryGetPositions: succeeds early on a non-empty list, rethrows
the distinguished error on an "insufficient funds" failure, swallows other
errors, and after the attempt budget returns the last observed result (which
starts as the empty list). -/
def retryGetPositionsGo (fn : Nat → Except ExtErr (List PositionData)) :
    Nat → Nat → List PositionData → Except Err (List PositionData)
  | 0, _, lastResult => Except.ok lastResult
  | remaining + 1, attempt, lastResult =>
    match fn attempt with
    | Except.ok ps =>
      if 0 < ps.length then Except.ok ps
      else retryGetPositionsGo fn remaining (attempt + 1) ps
    | Except.error e =>
      if e.insufficientFundsMsg then Except.error Err.insufficientFunds
      else retryGetPositionsGo fn remaining (attempt + 1) lastResult

/-- MeteoraRebalancer.retryGetPositions with a given retry count. -/
def retryGetPositions (fn : Nat → Except ExtErr (List PositionData))
    (retries : Nat) : Except Err (List PositionData) :=
  retryGetPositionsGo fn retries 0 []

/-- Target asset-A balance of rebalancePosition: half the total value in
B-terms, divided by the price. -/
def targetAssetABalance (a b p : ℚ) : ℚ := ((a * p + b) / 2) / p

/-- Target asset-B balance of rebalancePosition: half the total value in
B-terms. -/
def targetAssetBBalance (a b p : ℚ) : ℚ := (a * p + b) / 2

/-- Which swap the rebalancePosition branch structure issues, and its input
amount (lines 440 to 477 of the combined source file). -/
inductive SwapDecision where
  | swapAForB (amt : ℚ)
  | swapBForA (amt : ℚ)
  | noSwap
deriving Repr, DecidableEq

/-- Swap decision of rebalancePosition at usable balances a, b and price p. -/
def swapDecision (a b p : ℚ) : SwapDecision :=
  if a > targetAssetABalance a b p then
    SwapDecision.swapAForB (a - targetAssetABalance a b p)
  else if b > targetAssetBBalance a b p then
    SwapDecision.swapBForA (b - targetAssetBBalance a b p)
  else SwapDecision.noSwap

/-- Unclamped range interval of loadInitialState:
ceil of rangeRelative * 10000 / binStep. -/
def rangeIntervalUnclamped (r g : ℚ) : Int := ⌈r * 10000 / g⌉

/-- Range interval stored by loadInitialState: the unclamped value capped at
METERORA_MAX_BINS_PER_SIDE (no lower clamp exists in the source). -/
def meteoraRangeIntervalCalc (r g : ℚ) : Int :=
  min (rangeIntervalUnclamped r g) METERORA_MAX_BINS_PER_SIDE

/-- Warning alert emitted by loadInitialState when the unclamped range
interval exceeds the protocol maximum. -/
def rangeSizingActs (r g : ℚ) : List Action :=
  if METERORA_MAX_BINS_PER_SIDE < rangeIntervalUnclamped r g then
    [Action.alert Sev.warning AlertMsg.rangeClipped]
  else []

/-- Collaborator outcomes consumed by one removeLiquidity call, in order:
the retried meteora.removeLiquidity (liquidityRemoved and feesClaimed pairs),
then the two raw wallet reads of the post-removal getUsableBalances. -/
structure RemoveEnv where
  result : Except Err ((ℚ × ℚ) × (ℚ × ℚ))
  rawA : ℚ
  rawB : ℚ

/-- Collaborator outcomes consumed by one rebalancePosition call, in order:
raw wallet reads of the first getUsableBalances, the retried getActiveBin,
the retried jupiter.swap output amount (consumed only when a swap fires), and
the raw wallet reads of the final getUsableBalances. -/
structure RebalanceEnv where
  rawA1 : ℚ
  rawB1 : ℚ
  activeBin : Except Err ActiveBin
  swapResult : Except Err ℚ
  rawA2 : ℚ
  rawB2 : ℚ

/-- Collaborator outcomes consumed by one addLiquidity call, in order: the
native balance read by verifyNativeTokenBufferForPositions, raw wallet reads
of getUsableBalances, the retried meteora.addLiquidity, and the
attempt-indexed oracle of the 10-attempt retryGetPositions read-back. -/
structure AddEnv where
  native : ℚ
  rawA : ℚ
  rawB : ℚ
  addResult : Except Err Unit
  positionsFn : Nat → Except ExtErr (List PositionData)

/-- Collaborator outcomes consumed by one loadInitialState call, in order:
the getPoolDetails result (none when that helper caught a failure, alerted
and returned undefined), the configured range fraction, the attempt-indexed
oracle of the 3-attempt position query, the native balance read by
verifyNativeTokenBalanceForFees, and the environments of the
rebalancePosition and addLiquidity sub-calls taken on the creation path.
The initial getUsableBalances of loadInitialState only feeds console.log and
is not modelled. -/
structure LoadEnv where
  poolDetails : Option PoolDetails
  rangeRelative : ℚ
  positionsFn : Nat → Except ExtErr (List PositionData)
  nativeForFees : ℚ
  rebalEnv : RebalanceEnv
  addEnv : AddEnv

/-- Collaborator outcomes consumed by one rebalance cycle, in order: the
retried getActiveBin, then on the out-of-range path the environments of the
removeLiquidity, rebalancePosition, the native read of the standalone
verifyNativeTokenBufferForPositions, and addLiquidity; loadEnv feeds the
loadInitialState re-run triggered by a caught no-positions error. -/
structure CycleEnv where
  activeBin : Except Err ActiveBin
  removeEnv : RemoveEnv
  rebalEnv : RebalanceEnv
  nativeBuffer : ℚ
  addEnv : AddEnv
  loadEnv : LoadEnv

/-- MeteoraRebalancer.removeLiquidity.  pd is the current _poolDetails; the
this.poolDetails getter throws poolDetailsMissing when it is unset, and the
getter is first hit after the retried removal succeeded. -/
def removeLiquidity (pd : Option PoolDetails) (env : RemoveEnv) :
    Except Err Unit × List Action :=
  match env.result with
  | Except.error e => (Except.error e, [])
  | Except.ok ((la, lb), (fa, fb)) =>
    match pd with
    | none => (Except.error Err.poolDetailsMissing, [Action.removeLiquidityExec])
    | some d =>
      let na := usableAmount d.assetASymbol env.rawA
      let nb := usableAmount d.assetBSymbol env.rawB
      (Except.ok (),
       [Action.removeLiquidityExec,
        Action.logBalances LogTag.liquidityRemoved la lb,
        Action.logBalances LogTag.rewardsClaimed fa fb,
        Action.logAction (LogTag.withdrew na nb)])

/-- Swap step of rebalancePosition: execute the swap the decision calls for
(consuming the retried jupiter.swap outcome) and log it; no swap means no
effect.  Returns the actions, or the error the swap surfaced. -/
def swapActions (a b p : ℚ) (swapResult : Except Err ℚ) :
    Except Err (List Action) :=
  match swapDecision a b p with
  | SwapDecision.swapAForB amt =>
    match swapResult with
    | Except.error e => Except.error e
    | Except.ok out =>
      Except.ok [Action.swapExec SwapDir.aToB amt out,
                 Action.logAction (LogTag.swappedToRebalance SwapDir.aToB amt out)]
  | SwapDecision.swapBForA amt =>
    match swapResult with
    | Except.error e => Except.error e
    | Except.ok out =>
      Except.ok [Action.swapExec SwapDir.bToA amt out,
                 Action.logAction (LogTag.swappedToRebalance SwapDir.bToA amt out)]
  | SwapDecision.noSwap => Except.ok []

/-- MeteoraRebalancer.rebalancePosition.  Reads usable balances, reads the
active bin for the price, issues at most one swap per the branch structure,
then logs the price and a fresh usable-balance snapshot.  The catch clause of
the source only logs and rethrows, so it is the identity here. -/
def rebalancePosition (pd : Option PoolDetails) (env : RebalanceEnv) :
    Except Err Unit × List Action :=
  match pd with
  | none => (Except.error Err.poolDetailsMissing, [])
  | some d =>
    match env.activeBin with
    | Except.error e => (Except.error e, [])
    | Except.ok bin =>
      match swapActions (usableAmount d.assetASymbol env.rawA1)
          (usableAmount d.assetBSymbol env.rawB1) bin.pricePerToken
          env.swapResult with
      | Except.error e => (Except.error e, [])
      | Except.ok sacts =>
        (Except.ok (),
         sacts ++ [Action.logPrice bin.pricePerToken,
                   Action.logBalances LogTag.totalBalances
                     (usableAmount d.assetASymbol env.rawA2)
                     (usableAmount d.assetBSymbol env.rawB2)])

/-- MeteoraRebalancer.addLiquidity.  Verifies the native-token buffer, adds
liquidity from the current usable balances with the cached range interval,
then reads back the new position with a 10-attempt query; if that read-back
comes up empty it warns (console only) and returns with the cached bin ids
unchanged, else it overwrites them from the first position returned. -/
def addLiquidity (s : RebState) (env : AddEnv) :
    Except Err Unit × RebState × List Action :=
  match verifyNativeTokenBufferForPositions env.native with
  | (Except.error e, vacts) => (Except.error e, s, vacts)
  | (Except.ok _, _) =>
    match s.poolDetails with
    | none => (Except.error Err.poolDetailsMissing, s, [])
    | some d =>
      let a := usableAmount d.assetASymbol env.rawA
      let b := usableAmount d.assetBSymbol env.rawB
      match env.addResult with
      | Except.error e => (Except.error e, s, [])
      | Except.ok _ =>
        let acts := [Action.addLiquidityExec a b s.meteoraRangeInterval,
                     Action.logBalances LogTag.liquidityAdded a b]
        match retryGetPositions env.positionsFn 10 with
        | Except.error e => (Except.error e, s, acts)
        | Except.ok [] => (Except.ok (), s, acts)
        | Except.ok (pos :: _) =>
          (Except.ok (),
           { s with currLowerBinId := pos.lowerBinId,
                    currUpperBinId := pos.upperBinId }, acts)

/-- MeteoraRebalancer.loadInitialState.  Resolves pool details (throwing when
unresolved), computes and stores the clamped range interval (warning when the
unclamped value exceeds the maximum), queries positions with 3 attempts; on
an empty result it runs the warning-level fee check, rebalances assets,
creates a position and returns true; otherwise it adopts the first returned
position's bounds and returns false. -/
def loadInitialState (s : RebState) (env : LoadEnv) :
    Except Err Bool × RebState × List Action :=
  match env.poolDetails with
  | none =>
    (Except.error Err.poolDetailsFailed, { s with poolDetails := none },
     [Action.alert Sev.error AlertMsg.getPoolDetailsFailed])
  | some d =>
    let wacts := rangeSizingActs env.rangeRelative d.binStep
    let s2 : RebState :=
      { s with poolDetails := some d,
               meteoraRangeInterval :=
                 some (meteoraRangeIntervalCalc env.rangeRelative d.binStep) }
    match retryGetPositions env.positionsFn 3 with
    | Except.error e => (Except.error e, s2, wacts)
    | Except.ok [] =>
      let facts := verifyNativeTokenBalanceForFees env.nativeForFees
      match rebalancePosition (some d) env.rebalEnv with
      | (Except.error e, pacts) => (Except.error e, s2, wacts ++ facts ++ pacts)
      | (Except.ok _, pacts) =>
        match addLiquidity s2 env.addEnv with
        | (Except.error e, s3, aacts) =>
          (Except.error e, s3, wacts ++ facts ++ pacts ++ aacts)
        | (Except.ok _, s3, aacts) =>
          (Except.ok true, s3, wacts ++ facts ++ pacts ++ aacts)
    | Except.ok (pos :: _) =>
      (Except.ok false,
       { s2 with currLowerBinId := pos.lowerBinId,
                 currUpperBinId := pos.upperBinId }, wacts)

/-- Try-block body of MeteoraRebalancer.rebalance: read the active bin; when
it is outside the cached inclusive range, log the breach and run the
relocation sequence removeLiquidity, rebalancePosition,
verifyNativeTokenBufferForPositions, addLiquidity, returning true; when it is
inside, return false having done nothing observable. -/
def rebalanceBody (s : RebState) (env : CycleEnv) :
    Except Err Bool × RebState × List Action :=
  match env.activeBin with
  | Except.error e => (Except.error e, s, [])
  | Except.ok bin =>
    if bin.binId < s.currLowerBinId ∨ s.currUpperBinId < bin.binId then
      let acts0 :=
        [Action.logAction (LogTag.outOfRange bin.binId s.currLowerBinId s.currUpperBinId)]
      match removeLiquidity s.poolDetails env.removeEnv with
      | (Except.error e, racts) => (Except.error e, s, acts0 ++ racts)
      | (Except.ok _, racts) =>
        match rebalancePosition s.poolDetails env.rebalEnv with
        | (Except.error e, pacts) => (Except.error e, s, acts0 ++ racts ++ pacts)
        | (Except.ok _, pacts) =>
          match verifyNativeTokenBufferForPositions env.nativeBuffer with
          | (Except.error e, vacts) =>
            (Except.error e, s, acts0 ++ racts ++ pacts ++ vacts)
          | (Except.ok _, vacts) =>
            match addLiquidity s env.addEnv with
            | (Except.error e, s2, aacts) =>
              (Except.error e, s2, acts0 ++ racts ++ pacts ++ vacts ++ aacts)
            | (Except.ok _, s2, aacts) =>
              (Except.ok true, s2, acts0 ++ racts ++ pacts ++ vacts ++ aacts)
    else
      (Except.ok false, s, [])

/-- MeteoraRebalancer.rebalance: the try body with its catch clause.  A body
failure whose message mentions "No positions found in this pool" first
re-runs loadInitialState (whose own failure propagates out uncaught); then
the caught error is alerted and false is returned. -/
def rebalance (s : RebState) (env : CycleEnv) :
    Except Err Bool × RebState × List Action :=
  match rebalanceBody s env with
  | (Except.ok b, s2, acts) => (Except.ok b, s2, acts)
  | (Except.error e, s2, acts) =>
    if e.mentionsNoPositions then
      match loadInitialState s2 env.loadEnv with
      | (Except.error e2, s3, acts2) => (Except.error e2, s3, acts ++ acts2)
      | (Except.ok _, s3, acts2) =>
        (Except.ok false, s3,
         acts ++ acts2 ++ [Action.alert Sev.error (AlertMsg.rebalanceError e)])
    else
      (Except.ok false, s2,
       acts ++ [Action.alert Sev.error (AlertMsg.rebalanceError e)])

/-- Whether an action is the ledger remove-liquidity call. -/
def isRemoveExec : Action → Bool
  | Action.removeLiquidityExec => true
  | _ => false

/-- Whether an action is the ledger add-liquidity call. -/
def isAddExec : Action → Bool
  | Action.addLiquidityExec _ _ _ => true
  | _ => false

/-! Concrete inputs used by counterexamples and witnesses. -/

/-- Pool with non-native symbols, used by C1's witness. -/
def c1Pool : PoolDetails := ⟨25, "mintA", "mintB", "TOK", "USDC"⟩

/-- Cached state with position range 100 to 120, used by C1's witness. -/
def c1State : RebState := ⟨some c1Pool, 100, 120, some 20⟩

/-- Balancer environment with zero balances (no swap needed). -/
def c1RebalEnv : RebalanceEnv := ⟨0, 0, Except.ok ⟨130, 2⟩, Except.ok 0, 0, 0⟩

/-- Add environment whose read-back finds the new position at 110 to 150. -/
def c1AddEnv : AddEnv := ⟨1, 0, 0, Except.ok (), fun _ => Except.ok [⟨110, 150⟩]⟩

/-- Reload environment (unused on C1's paths). -/
def c1LoadEnv : LoadEnv := ⟨none, 0, fun _ => Except.ok [], 1, c1RebalEnv, c1AddEnv⟩

/-- Cycle environment observing active bin 110, inside the range. -/
def c1EnvIn : CycleEnv :=
  ⟨Except.ok ⟨110, 2⟩, ⟨Except.ok ((0, 0), (0, 0)), 0, 0⟩, c1RebalEnv, 1,
   c1AddEnv, c1LoadEnv⟩

/-- Cycle environment observing active bin 130, outside the range. -/
def c1EnvOut : CycleEnv :=
  ⟨Except.ok ⟨130, 2⟩, ⟨Except.ok ((0, 0), (0, 0)), 0, 0⟩, c1RebalEnv, 1,
   c1AddEnv, c1LoadEnv⟩

/-- Balancer environment (unused) for C5's environments. -/
def c5RebalEnv : RebalanceEnv := ⟨0, 0, Except.ok ⟨0, 2⟩, Except.ok 0, 0, 0⟩

/-- Add environment (unused) for C5's environments. -/
def c5AddEnv : AddEnv := ⟨1, 0, 0, Except.ok (), fun _ => Except.ok []⟩

/-- Cycle environment where the active-bin read fails with a message
mentioning "No positions found in this pool", and the loadInitialState
re-run fails because the pool-details fetch comes back empty. -/
def c5Env : CycleEnv :=
  ⟨Except.error (Err.ext ⟨false, true, 0⟩), ⟨Except.ok ((0, 0), (0, 0)), 0, 0⟩,
   c5RebalEnv, 1, c5AddEnv,
   ⟨none, 0, fun _ => Except.ok [], 1, c5RebalEnv, c5AddEnv⟩⟩

/-- Cycle environment where the active-bin read fails with a generic
transient error (no recognized substring). -/
def c5WitEnv : CycleEnv :=
  ⟨Except.error (Err.ext ⟨false, false, 7⟩), ⟨Except.ok ((0, 0), (0, 0)), 0, 0⟩,
   c5RebalEnv, 1, c5AddEnv,
   ⟨none, 0, fun _ => Except.ok [], 1, c5RebalEnv, c5AddEnv⟩⟩

/-- Pool with non-native symbols, used by C6's witness. -/
def c6Pool : PoolDetails := ⟨25, "mintA", "mintB", "TOK", "USDC"⟩

/-- Balancer environment with zero balances (no swap needed). -/
def c6RebalEnv : RebalanceEnv := ⟨0, 0, Except.ok ⟨0, 2⟩, Except.ok 0, 0, 0⟩

/-- Add environment whose read-back finds the new position at 5 to 45. -/
def c6AddEnv : AddEnv := ⟨1, 0, 0, Except.ok (), fun _ => Except.ok [⟨5, 45⟩]⟩

/-- Startup environment whose position query finds nothing. -/
def c6LoadEnvEmpty : LoadEnv :=
  ⟨some c6Pool, 1 / 20, fun _ => Except.ok [], 1, c6RebalEnv, c6AddEnv⟩

/-- Startup environment whose position query finds a position at 100-120. -/
def c6LoadEnvExisting : LoadEnv :=
  ⟨some c6Pool, 1 / 20, fun _ => Except.ok [⟨100, 120⟩], 1, c6RebalEnv, c6AddEnv⟩

/-- Trace of C6's witness rebalancePosition sub-call. -/
def c6Pacts : List Action :=
  [Action.logPrice 2, Action.logBalances LogTag.totalBalances 0 0]

/-- Trace of C6's witness addLiquidity sub-call. -/
def c6Aacts : List Action :=
  [Action.addLiquidityExec 0 0 (some 20),
   Action.logBalances LogTag.liquidityAdded 0 0]

/-- State after C6's witness creation path. -/
def c6FinalState : RebState := ⟨some c6Pool, 5, 45, some 20⟩

/-- Pool with non-native symbols, used by C7. -/
def c7Pool : PoolDetails := ⟨25, "mintA", "mintB", "TOK", "USDC"⟩

/-- Cached state with position range 100 to 120, used by C7. -/
def c7State : RebState := ⟨some c7Pool, 100, 120, some 20⟩

/-- Balancer environment holding A=10, B=0 at price 2 (swap of 5 fires). -/
def c7RebalEnv : RebalanceEnv :=
  ⟨10, 0, Except.ok ⟨130, 2⟩, Except.ok 5, 5, 10⟩

/-- Add environment whose 10-attempt read-back never finds a position. -/
def c7AddEnv : AddEnv := ⟨1, 5, 10, Except.ok (), fun _ => Except.ok []⟩

/-- Reload environment (unused on C7's paths). -/
def c7LoadEnv : LoadEnv :=
  ⟨none, 0, fun _ => Except.ok [], 0, c7RebalEnv, c7AddEnv⟩

/-- Cycle environment for the C7 counterexample: active bin 130 breaches the
range, every relocation step succeeds, but the post-add position query
returns the empty list on all attempts. -/
def c7Env : CycleEnv :=
  ⟨Except.ok ⟨130, 2⟩, ⟨Except.ok ((3, 4), (1, 2)), 10, 0⟩, c7RebalEnv, 1,
   c7AddEnv, c7LoadEnv⟩

/-- Add environment whose read-back finds the new position at 125 to 165. -/
def c7WitAddEnv : AddEnv :=
  ⟨1, 0, 0, Except.ok (), fun _ => Except.ok [⟨125, 165⟩]⟩

/-- Balancer environment with zero balances (no swap needed). -/
def c7WitRebalEnv : RebalanceEnv := ⟨0, 0, Except.ok ⟨130, 2⟩, Except.ok 0, 0, 0⟩

/-- Cycle environment for the C7 amended witness: like the counterexample
but the post-add read-back succeeds. -/
def c7WitEnv : CycleEnv :=
  ⟨Except.ok ⟨130, 2⟩, ⟨Except.ok ((0, 0), (0, 0)), 0, 0⟩, c7WitRebalEnv, 1,
   c7WitAddEnv, c7LoadEnv⟩

/-- Pool with non-native symbols, used by the C3 counterexample. -/
def c3Pool : PoolDetails := ⟨25, "mintA", "mintB", "TOK", "USDC"⟩

/-- Unused sub-environment on the adopt-existing-position path. -/
def c3RebalEnv : RebalanceEnv := ⟨0, 0, Except.ok ⟨0, 1⟩, Except.ok 0, 0, 0⟩

/-- Unused sub-environment on the adopt-existing-position path. -/
def c3AddEnv : AddEnv := ⟨1, 0, 0, Except.ok (), fun _ => Except.ok [⟨100, 120⟩]⟩

/-- Startup environment with range fraction 0 and an existing position. -/
def c3LoadEnv : LoadEnv :=
  ⟨some c3Pool, 0, fun _ => Except.ok [⟨100, 120⟩], 1, c3RebalEnv, c3AddEnv⟩

/-- Oracle whose every attempt fails with an insufficient-funds message. -/
def c4FatalFn : Nat → Except ExtErr Nat := fun _ => Except.error ⟨true, false, 0⟩

/-- Oracle whose every attempt fails with a generic transient message. -/
def c4GenericFn : Nat → Except ExtErr Nat := fun _ => Except.error ⟨false, false, 1⟩

/-- Add-liquidity environment whose native balance is below the buffer. -/
def c10AddEnv : AddEnv := ⟨1 / 20, 1, 1, Except.ok (), fun _ => Except.ok []⟩

/-- Pool used by the C9 witness: asset A is the native asset. -/
def c9Pool : PoolDetails := ⟨25, "mintA", "mintB", "SOL", "USDC"⟩

/-!  Theorems, one per claim, with witnesses. -/

/-- C2: for balances A, B and price p greater than 0, the asset balancer's
targets are T/(2p) for A and T/2 for B where T = A*p + B; if A exceeds its
target it swaps exactly A minus T/(2p) units of A into B, else if B exceeds
its target it swaps exactly B minus T/2 units of B into A; for A=10, p=2,
B=0 it swaps exactly 5 units of A for B. -/
theorem c2_asset_balancer_sizing (a b p : ℚ) (hp : 0 < p) :
    targetAssetABalance a b p = (a * p + b) / (2 * p) ∧
    targetAssetBBalance a b p = (a * p + b) / 2 ∧
    (a > (a * p + b) / (2 * p) →
      swapDecision a b p = SwapDecision.swapAForB (a - (a * p + b) / (2 * p))) ∧
    (¬ a > (a * p + b) / (2 * p) → b > (a * p + b) / 2 →
      swapDecision a b p = SwapDecision.swapBForA (b - (a * p + b) / 2)) ∧
    swapDecision 10 0 2 = SwapDecision.swapAForB 5 := by
  have ht : targetAssetABalance a b p = (a * p + b) / (2 * p) := by
    unfold targetAssetABalance
    rw [div_div]
  refine ⟨ht, rfl, ?_, ?_, ?_⟩
  · intro h
    unfold swapDecision
    rw [ht, if_pos h]
  · intro h1 h2
    unfold swapDecision
    rw [ht, if_neg h1,
      show targetAssetBBalance a b p = (a * p + b) / 2 from rfl, if_pos h2]
  · norm_num [swapDecision, targetAssetABalance, targetAssetBBalance]

/-- Witness for C2 at A=10, B=0, p=2. -/
theorem c2_asset_balancer_sizing_witness :
    swapDecision 10 0 2 = SwapDecision.swapAForB 5 :=
  (c2_asset_balancer_sizing 10 0 2 (by norm_num)).2.2.2.2

/-- C8: the asset balancer is idempotent at the 50/50 target split (the
source has no tolerance band, so the defined epsilon is zero in this exact
arithmetic model): if A*p = B no swap is issued; and the two swap branches
are mutually exclusive, both target amounts summing to the same total value
as the actual amounts. -/
theorem c8_balancer_idempotent_exclusive (a b p : ℚ) (hp : 0 < p) :
    (a * p = b → swapDecision a b p = SwapDecision.noSwap) ∧
    ¬ (a > targetAssetABalance a b p ∧ b > targetAssetBBalance a b p) := by
  constructor
  · intro hab
    have hA : targetAssetABalance a b p = a := by
      unfold targetAssetABalance
      rw [← hab]
      field_simp
    have hB : targetAssetBBalance a b p = b := by
      unfold targetAssetBBalance
      rw [← hab]
      ring
    unfold swapDecision
    rw [hA, hB, if_neg (lt_irrefl a), if_neg (lt_irrefl b)]
  · rintro ⟨h1, h2⟩
    have h1' : (a * p + b) / 2 < a * p := by
      have := (div_lt_iff hp).mp h1
      unfold targetAssetABalance at this
      linarith [this]
    have h2' : (a * p + b) / 2 < b := h2
    linarith

/-- Witness for C8 at A=1, B=2, p=2 (value split exactly 50/50). -/
theorem c8_balancer_idempotent_exclusive_witness :
    swapDecision 1 2 2 = SwapDecision.noSwap :=
  (c8_balancer_idempotent_exclusive 1 2 2 (by norm_num)).1 (by norm_num)

/-- C9: in every balance read, the asset whose symbol case-insensitively
matches the chain's native gas asset gets max(0, raw - buffer) with the
default buffer 0.1, the other asset is returned unmodified; raw 0.05 yields
usable 0; returned amounts are non-negative (given non-negative raw reads
for the unmodified assets). -/
theorem c9_reserve_buffer (d : PoolDetails) (rawA rawB : ℚ) :
    (isSolSymbol d.assetASymbol = true →
      (getUsableBalances d rawA rawB).1 = max 0 (rawA - NATIVE_TOKEN_FEE_BUFFER)) ∧
    (isSolSymbol d.assetASymbol = false →
      (getUsableBalances d rawA rawB).1 = rawA) ∧
    (isSolSymbol d.assetBSymbol = true →
      (getUsableBalances d rawA rawB).2 = max 0 (rawB - NATIVE_TOKEN_FEE_BUFFER)) ∧
    (isSolSymbol d.assetBSymbol = false →
      (getUsableBalances d rawA rawB).2 = rawB) ∧
    usableAmount "SOL" (1 / 20) = 0 ∧
    (0 ≤ rawA → 0 ≤ (getUsableBalances d rawA rawB).1) ∧
    (0 ≤ rawB → 0 ≤ (getUsableBalances d rawA rawB).2) := by
  refine ⟨?_, ?_, ?_, ?_, ?_, ?_, ?_⟩
  · intro h
    simp [getUsableBalances, usableAmount, h]
  · intro h
    simp [getUsableBalances, usableAmount, h]
  · intro h
    simp [getUsableBalances, usableAmount, h]
  · intro h
    simp [getUsableBalances, usableAmount, h]
  · have hs : isSolSymbol "SOL" = true := by decide
    have hneg : (1 : ℚ) / 20 - NATIVE_TOKEN_FEE_BUFFER ≤ 0 := by
      norm_num [NATIVE_TOKEN_FEE_BUFFER]
    unfold usableAmount
    rw [if_pos hs, max_eq_left hneg]
  · intro h
    show 0 ≤ usableAmount d.assetASymbol rawA
    unfold usableAmount
    split
    · exact le_max_left 0 _
    · exact h
  · intro h
    show 0 ≤ usableAmount d.assetBSymbol rawB
    unfold usableAmount
    split
    · exact le_max_left 0 _
    · exact h

/-- Witness for C9: native asset A with raw 0.05 yields usable 0, the
non-native asset passes through. -/
theorem c9_reserve_buffer_witness :
    (isSolSymbol c9Pool.assetASymbol = true →
      (getUsableBalances c9Pool (1 / 20) 7).1 =
        max 0 (1 / 20 - NATIVE_TOKEN_FEE_BUFFER)) ∧
    (isSolSymbol c9Pool.assetBSymbol = false →
      (getUsableBalances c9Pool (1 / 20) 7).2 = 7) :=
  ⟨(c9_reserve_buffer c9Pool (1 / 20) 7).1,
   (c9_reserve_buffer c9Pool (1 / 20) 7).2.2.2.1⟩

/-- C3 counterexample: with range fraction r = 0 and bin step g = 25 (a
configuration the constructor accepts, 0 being a valid number), startup
stores range width 0, whereas clamp(ceil(r*10000/g), 1, 34) = 1; the claimed
invariant 0 < width fails. -/
theorem c3_range_width_counterexample :
    (loadInitialState RebState.initial c3LoadEnv).2.1.meteoraRangeInterval =
      some 0 ∧
    max 1 (min (rangeIntervalUnclamped 0 25) METERORA_MAX_BINS_PER_SIDE) = 1 := by
  constructor
  · norm_num [loadInitialState, retryGetPositions, retryGetPositionsGo,
      rangeSizingActs, meteoraRangeIntervalCalc, rangeIntervalUnclamped,
      METERORA_MAX_BINS_PER_SIDE, c3LoadEnv, c3Pool, RebState.initial]
  · norm_num [rangeIntervalUnclamped, METERORA_MAX_BINS_PER_SIDE]

/-- C3 amended: the width computed at startup is min(ceil(r*10000/g), 34)
with no lower clamp; for positive r and g it satisfies 0 < width and
width at most 34, and the warning alert fires exactly when the unclamped
value exceeds the maximum; r=0.05, g=25 gives 20 unclamped; r=0.5, g=1 gives
5000, clamped to the maximum. -/
theorem c3_range_width_amended (r g : ℚ) (hr : 0 < r) (hg : 0 < g) :
    meteoraRangeIntervalCalc r g =
      min ⌈r * 10000 / g⌉ METERORA_MAX_BINS_PER_SIDE ∧
    0 < meteoraRangeIntervalCalc r g ∧
    meteoraRangeIntervalCalc r g ≤ METERORA_MAX_BINS_PER_SIDE ∧
    (rangeSizingActs r g = [Action.alert Sev.warning AlertMsg.rangeClipped] ↔
      METERORA_MAX_BINS_PER_SIDE < ⌈r * 10000 / g⌉) ∧
    meteoraRangeIntervalCalc (1 / 20) 25 = 20 ∧
    meteoraRangeIntervalCalc (1 / 2) 1 = METERORA_MAX_BINS_PER_SIDE := by
  have hpos : (0 : ℚ) < r * 10000 / g := by positivity
  refine ⟨rfl, ?_, ?_, ?_, ?_, ?_⟩
  · unfold meteoraRangeIntervalCalc rangeIntervalUnclamped METERORA_MAX_BINS_PER_SIDE
    exact lt_min (Int.ceil_pos.mpr hpos) (by norm_num)
  · exact min_le_right _ _
  · unfold rangeSizingActs rangeIntervalUnclamped
    split
    next hcond => exact iff_of_true rfl hcond
    next hcond => exact iff_of_false (by simp) hcond
  · norm_num [meteoraRangeIntervalCalc, rangeIntervalUnclamped,
      METERORA_MAX_BINS_PER_SIDE]
  · norm_num [meteoraRangeIntervalCalc, rangeIntervalUnclamped,
      METERORA_MAX_BINS_PER_SIDE]

/-- Witness for C3 amended at r = 1/20, g = 25. -/
theorem c3_range_width_amended_witness :
    0 < meteoraRangeIntervalCalc (1 / 20) 25 ∧
    meteoraRangeIntervalCalc (1 / 20) 25 = 20 :=
  ⟨(c3_range_width_amended (1 / 20) 25 (by norm_num) (by norm_num)).2.1,
   (c3_range_width_amended (1 / 20) 25 (by norm_num) (by norm_num)).2.2.2.2.1⟩

/-- Helper: one generic failure advances the retry loop to the next attempt,
recording the error as the last observed one. -/
theorem retryGo_step {α : Type} (fn : Nat → Except ExtErr α)
    (rem attempt : Nat) (last : Option ExtErr) (er : ExtErr)
    (hf : fn attempt = Except.error er)
    (hmsg : er.insufficientFundsMsg = false) :
    retryGo fn (rem + 1) attempt last = retryGo fn rem (attempt + 1) (some er) := by
  rw [retryGo.eq_2]
  rw [hf]
  simp [hmsg]

/-- Helper: when every attempt in the window fails with a non-fatal error,
the retry loop exhausts its budget and surfaces the last observed error,
having invoked the operation once per attempt. -/
theorem retryGo_exhausts {α : Type} (fn : Nat → Except ExtErr α)
    (e : Nat → ExtErr) :
    ∀ remaining attempt last, 0 < remaining →
      (∀ i, attempt ≤ i → i < attempt + remaining →
        fn i = Except.error (e i) ∧ (e i).insufficientFundsMsg = false) →
      retryGo fn remaining attempt last =
        (RetryOutcome.exhausted (some (e (attempt + remaining - 1))),
         attempt + remaining)
  | 0, _, _, h0, _ => absurd h0 (by norm_num)
  | 1, attempt, last, _, h => by
      have hfa := h attempt (le_refl _) (by omega)
      simp [retryGo, hfa.1, hfa.2]
  | (n + 2), attempt, last, _, h => by
      have hfa := h attempt (le_refl _) (by omega)
      have ih := retryGo_exhausts fn e (n + 1) (attempt + 1) (some (e attempt))
        (by omega) (fun i h1 h2 => h i (by omega) (by omega))
      have hidx : attempt + 1 + (n + 1) - 1 = attempt + (n + 2) - 1 := by omega
      have hcnt : attempt + 1 + (n + 1) = attempt + (n + 2) := by omega
      rw [hidx, hcnt] at ih
      rw [retryGo_step fn (n + 1) attempt last (e attempt) hfa.1 hfa.2, ih]

/-- C4: the retry executor with attempt budget N: a failure whose message
signals an insufficient-funds shortfall on the first attempt aborts
immediately with the distinguished outcome after exactly one invocation,
whatever N; when every attempt fails with a generic error the operation is
invoked exactly N times and the last observed failure is surfaced. -/
theorem c4_retry_executor {α : Type} (fn : Nat → Except ExtErr α) (N : Nat)
    (e : Nat → ExtErr) (hN : 0 < N) :
    ((e 0).insufficientFundsMsg = true → fn 0 = Except.error (e 0) →
      retry fn N = (RetryOutcome.fatalInsufficientFunds, 1)) ∧
    ((∀ i, i < N → fn i = Except.error (e i) ∧
        (e i).insufficientFundsMsg = false) →
      retry fn N = (RetryOutcome.exhausted (some (e (N - 1))), N)) := by
  obtain ⟨m, rfl⟩ : ∃ m, N = m + 1 := ⟨N - 1, by omega⟩
  constructor
  · intro hfatal hf0
    unfold retry retryGo
    rw [hf0]
    simp [hfatal]
  · intro h
    have := retryGo_exhausts fn e (m + 1) 0 none (by omega)
      (fun i h1 h2 => h i (by omega))
    simpa using this

/-- Witness for C4 with N = 5: a fatal-funds failure aborts after one
invocation; generic failures exhaust all five attempts. -/
theorem c4_retry_executor_witness :
    retry c4FatalFn 5 = (RetryOutcome.fatalInsufficientFunds, 1) ∧
    retry c4GenericFn 5 =
      (RetryOutcome.exhausted (some ⟨false, false, 1⟩), 5) :=
  ⟨(c4_retry_executor c4FatalFn 5 (fun _ => ⟨true, false, 0⟩) (by norm_num)).1
      rfl rfl,
   (c4_retry_executor c4GenericFn 5 (fun _ => ⟨false, false, 1⟩)
      (by norm_num)).2 (fun i _ => ⟨rfl, rfl⟩)⟩

/-- C10: the fee check run by loadInitialState
(verifyNativeTokenBalanceForFees, threshold NATIVE_TOKEN_MIN_BALANCE) always
returns and at most emits a warning alert; the check inside addLiquidity
(verifyNativeTokenBufferForPositions) throws the distinguished
insufficient-funds failure exactly when the raw native balance is below
NATIVE_TOKEN_FEE_BUFFER, and a below-buffer balance makes addLiquidity abort
immediately with that failure and an error alert. -/
theorem c10_fee_checks (native : ℚ) (s : RebState) (env : AddEnv) :
    (∀ a ∈ verifyNativeTokenBalanceForFees native,
      a = Action.alert Sev.warning AlertMsg.lowNativeBalance) ∧
    ((verifyNativeTokenBufferForPositions native).1 =
        Except.error Err.insufficientFundsForPositionFees ↔
      native < NATIVE_TOKEN_FEE_BUFFER) ∧
    (env.native < NATIVE_TOKEN_FEE_BUFFER →
      addLiquidity s env =
        (Except.error Err.insufficientFundsForPositionFees, s,
         [Action.alert Sev.error AlertMsg.insufficientNativeForPositionFees])) := by
  refine ⟨?_, ?_, ?_⟩
  · intro a ha
    unfold verifyNativeTokenBalanceForFees at ha
    split at ha
    · simpa using ha
    · simp at ha
  · unfold verifyNativeTokenBufferForPositions
    split
    next hcond => exact iff_of_true rfl hcond
    next hcond => exact iff_of_false (by simp) hcond
  · intro h
    unfold addLiquidity verifyNativeTokenBufferForPositions
    rw [if_pos h]

/-- Witness for C10 at native balance 0.05 (below the 0.1 buffer, above the
0.01 minimum). -/
theorem c10_fee_checks_witness :
    addLiquidity RebState.initial c10AddEnv =
      (Except.error Err.insufficientFundsForPositionFees, RebState.initial,
       [Action.alert Sev.error AlertMsg.insufficientNativeForPositionFees]) :=
  (c10_fee_checks (1 / 20) RebState.initial c10AddEnv).2.2
    (by norm_num [c10AddEnv, NATIVE_TOKEN_FEE_BUFFER])

/-- Helper: a successful removal emits exactly one ledger removal and no
ledger addition. -/
theorem removeLiquidity_ok_counts (pd : Option PoolDetails) (env : RemoveEnv)
    (u : Unit) (racts : List Action)
    (h : removeLiquidity pd env = (Except.ok u, racts)) :
    racts.countP isRemoveExec = 1 ∧ racts.countP isAddExec = 0 := by
  unfold removeLiquidity at h
  split at h
  · simp at h
  · split at h
    · simp at h
    · rw [Prod.mk.injEq] at h
      obtain ⟨-, h2⟩ := h
      subst h2
      simp [List.countP_cons, List.countP_nil, isRemoveExec, isAddExec]

/-- Helper: a successful swap step emits no ledger removal or addition. -/
theorem swapActions_ok_counts (a b p : ℚ) (sr : Except Err ℚ)
    (sacts : List Action) (h : swapActions a b p sr = Except.ok sacts) :
    sacts.countP isRemoveExec = 0 ∧ sacts.countP isAddExec = 0 := by
  unfold swapActions at h
  split at h
  · split at h
    · simp at h
    · rw [Except.ok.injEq] at h
      subst h
      simp [List.countP_cons, List.countP_nil, isRemoveExec, isAddExec]
  · split at h
    · simp at h
    · rw [Except.ok.injEq] at h
      subst h
      simp [List.countP_cons, List.countP_nil, isRemoveExec, isAddExec]
  · rw [Except.ok.injEq] at h
    subst h
    simp

/-- Helper: a successful rebalancePosition emits no ledger removal or
addition. -/
theorem rebalancePosition_ok_counts (pd : Option PoolDetails)
    (env : RebalanceEnv) (u : Unit) (pacts : List Action)
    (h : rebalancePosition pd env = (Except.ok u, pacts)) :
    pacts.countP isRemoveExec = 0 ∧ pacts.countP isAddExec = 0 := by
  unfold rebalancePosition at h
  split at h
  · simp at h
  · split at h
    · simp at h
    · split at h
      · simp at h
      · rename_i sacts hswap
        rw [Prod.mk.injEq] at h
        obtain ⟨-, h2⟩ := h
        subst h2
        have hs := swapActions_ok_counts _ _ _ _ _ hswap
        simp [List.countP_append, List.countP_cons, List.countP_nil,
          isRemoveExec, isAddExec, hs.1, hs.2]

/-- Helper: a successful addLiquidity emits exactly one ledger addition and
no ledger removal. -/
theorem addLiquidity_ok_counts (s : RebState) (env : AddEnv) (u : Unit)
    (s2 : RebState) (aacts : List Action)
    (h : addLiquidity s env = (Except.ok u, s2, aacts)) :
    aacts.countP isRemoveExec = 0 ∧ aacts.countP isAddExec = 1 := by
  unfold addLiquidity at h
  split at h
  · simp at h
  · split at h
    · simp at h
    · split at h
      · simp at h
      · split at h
        · simp at h
        · rw [Prod.mk.injEq] at h
          obtain ⟨-, h2⟩ := h
          rw [Prod.mk.injEq] at h2
          obtain ⟨-, h3⟩ := h2
          subst h3
          simp [List.countP_cons, List.countP_nil, isRemoveExec, isAddExec]
        · rw [Prod.mk.injEq] at h
          obtain ⟨-, h2⟩ := h
          rw [Prod.mk.injEq] at h2
          obtain ⟨-, h3⟩ := h2
          subst h3
          simp [List.countP_cons, List.countP_nil, isRemoveExec, isAddExec]

/-- C1: for every active-bin index read by rebalance, if it lies inside the
cached inclusive range the cycle relocates nothing, leaves the state
untouched, logs and alerts nothing, and returns false; if it lies strictly
outside and each relocation step succeeds, the cycle performs exactly one
relocation sequence (one ledger removal then one ledger addition, with the
asset rebalancing and fee-reserve verification between) and returns true. -/
theorem c1_rebalance_decision (s : RebState) (env : CycleEnv) (bin : ActiveBin)
    (hbin : env.activeBin = Except.ok bin) :
    (s.currLowerBinId ≤ bin.binId ∧ bin.binId ≤ s.currUpperBinId →
      rebalance s env = (Except.ok false, s, [])) ∧
    (bin.binId < s.currLowerBinId ∨ s.currUpperBinId < bin.binId →
      ∀ (ru : Unit) (racts : List Action) (pu : Unit) (pacts : List Action)
        (au : Unit) (s2 : RebState) (aacts : List Action),
      removeLiquidity s.poolDetails env.removeEnv = (Except.ok ru, racts) →
      rebalancePosition s.poolDetails env.rebalEnv = (Except.ok pu, pacts) →
      ¬ env.nativeBuffer < NATIVE_TOKEN_FEE_BUFFER →
      addLiquidity s env.addEnv = (Except.ok au, s2, aacts) →
      rebalance s env =
        (Except.ok true, s2,
         Action.logAction
             (LogTag.outOfRange bin.binId s.currLowerBinId s.currUpperBinId) ::
           (racts ++ pacts ++ aacts)) ∧
      (racts ++ pacts ++ aacts).countP isRemoveExec = 1 ∧
      (racts ++ pacts ++ aacts).countP isAddExec = 1) := by
  constructor
  · intro hin
    have hcond : ¬ (bin.binId < s.currLowerBinId ∨ s.currUpperBinId < bin.binId) := by
      push_neg
      exact ⟨hin.1, hin.2⟩
    unfold rebalance rebalanceBody
    rw [hbin]
    simp [hcond]
  · intro hout ru racts pu pacts au s2 aacts hrem hreb hbuf hadd
    have hr := removeLiquidity_ok_counts _ _ _ _ hrem
    have hp := rebalancePosition_ok_counts _ _ _ _ hreb
    have ha := addLiquidity_ok_counts _ _ _ _ _ hadd
    refine ⟨?_, ?_, ?_⟩
    · unfold rebalance rebalanceBody
      rw [hbin]
      simp [hout, hrem, hreb, hadd, verifyNativeTokenBufferForPositions, hbuf]
    · simp [List.countP_append, hr.1, hp.1, ha.1]
    · simp [List.countP_append, hr.2, hp.2, ha.2]

/-- Witness for C1: with cached range 100 to 120, active bin 110 changes
nothing and returns false; active bin 130 relocates once and returns true. -/
theorem c1_rebalance_decision_witness :
    rebalance c1State c1EnvIn = (Except.ok false, c1State, []) ∧
    rebalance c1State c1EnvOut =
      (Except.ok true, ⟨some c1Pool, 110, 150, some 20⟩,
       Action.logAction (LogTag.outOfRange 130 100 120) ::
         ([Action.removeLiquidityExec,
           Action.logBalances LogTag.liquidityRemoved 0 0,
           Action.logBalances LogTag.rewardsClaimed 0 0,
           Action.logAction (LogTag.withdrew 0 0)] ++
          [Action.logPrice 2, Action.logBalances LogTag.totalBalances 0 0] ++
          [Action.addLiquidityExec 0 0 (some 20),
           Action.logBalances LogTag.liquidityAdded 0 0])) := by
  have hrem : removeLiquidity c1State.poolDetails c1EnvOut.removeEnv =
      (Except.ok (),
       [Action.removeLiquidityExec,
        Action.logBalances LogTag.liquidityRemoved 0 0,
        Action.logBalances LogTag.rewardsClaimed 0 0,
        Action.logAction (LogTag.withdrew 0 0)]) := by
    norm_num [c1State, c1EnvOut, removeLiquidity, usableAmount,
      show isSolSymbol "TOK" = false from by decide,
      show isSolSymbol "USDC" = false from by decide, c1Pool]
  have hreb : rebalancePosition c1State.poolDetails c1EnvOut.rebalEnv =
      (Except.ok (),
       [Action.logPrice 2, Action.logBalances LogTag.totalBalances 0 0]) := by
    norm_num [c1State, c1EnvOut, rebalancePosition, swapActions,
      swapDecision, targetAssetABalance, targetAssetBBalance, usableAmount,
      show isSolSymbol "TOK" = false from by decide,
      show isSolSymbol "USDC" = false from by decide, c1Pool, c1RebalEnv]
  have hbuf : ¬ c1EnvOut.nativeBuffer < NATIVE_TOKEN_FEE_BUFFER := by
    norm_num [c1EnvOut, NATIVE_TOKEN_FEE_BUFFER]
  have hadd : addLiquidity c1State c1EnvOut.addEnv =
      (Except.ok (), (⟨some c1Pool, 110, 150, some 20⟩ : RebState),
       [Action.addLiquidityExec 0 0 (some 20),
        Action.logBalances LogTag.liquidityAdded 0 0]) := by
    norm_num [c1State, c1EnvOut, addLiquidity, c1AddEnv,
      verifyNativeTokenBufferForPositions, NATIVE_TOKEN_FEE_BUFFER,
      retryGetPositions, retryGetPositionsGo, usableAmount,
      show isSolSymbol "TOK" = false from by decide,
      show isSolSymbol "USDC" = false from by decide, c1Pool]
  constructor
  · exact (c1_rebalance_decision c1State c1EnvIn ⟨110, 2⟩ rfl).1
      (by norm_num [c1State])
  · exact ((c1_rebalance_decision c1State c1EnvOut ⟨130, 2⟩ rfl).2
      (by norm_num [c1State]) () _ () _ () _ _ hrem hreb hbuf hadd).1

/-- C6: loadInitialState with resolved pool details: when the 3-attempt
position query returns the empty list, it runs the warning-only fee check,
rebalances assets, creates exactly one position (one ledger addition) and
returns true; when the query returns a non-empty list it adopts the first
position's reported bounds into the cached range and returns false without
creating anything. -/
theorem c6_load_initial_state (s : RebState) (env : LoadEnv) (d : PoolDetails)
    (hd : env.poolDetails = some d) :
    (retryGetPositions env.positionsFn 3 = Except.ok [] →
      ∀ (pu : Unit) (pacts : List Action) (au : Unit) (s3 : RebState)
        (aacts : List Action),
      rebalancePosition (some d) env.rebalEnv = (Except.ok pu, pacts) →
      addLiquidity
          { s with
            poolDetails := some d,
            meteoraRangeInterval :=
              some (meteoraRangeIntervalCalc env.rangeRelative d.binStep) }
          env.addEnv = (Except.ok au, s3, aacts) →
      loadInitialState s env =
        (Except.ok true, s3,
         rangeSizingActs env.rangeRelative d.binStep ++
           verifyNativeTokenBalanceForFees env.nativeForFees ++
           pacts ++ aacts) ∧
      aacts.countP isAddExec = 1) ∧
    (∀ (p : PositionData) (rest : List PositionData),
      retryGetPositions env.positionsFn 3 = Except.ok (p :: rest) →
      loadInitialState s env =
        (Except.ok false,
         { s with
           poolDetails := some d,
           meteoraRangeInterval :=
             some (meteoraRangeIntervalCalc env.rangeRelative d.binStep),
           currLowerBinId := p.lowerBinId,
           currUpperBinId := p.upperBinId },
         rangeSizingActs env.rangeRelative d.binStep)) := by
  constructor
  · intro hpos pu pacts au s3 aacts hreb hadd
    have ha := addLiquidity_ok_counts _ _ _ _ _ hadd
    refine ⟨?_, ha.2⟩
    unfold loadInitialState
    rw [hd]
    simp only [hpos, hreb, hadd]
  · intro p rest hpos
    unfold loadInitialState
    rw [hd]
    simp only [hpos]

/-- Witness for C6: an empty position query leads to creation and true; an
existing position at 100 to 120 is adopted and false returned. -/
theorem c6_load_initial_state_witness :
    loadInitialState RebState.initial c6LoadEnvEmpty =
      (Except.ok true, c6FinalState,
       rangeSizingActs (1 / 20) 25 ++ verifyNativeTokenBalanceForFees 1 ++
         c6Pacts ++ c6Aacts) ∧
    loadInitialState RebState.initial c6LoadEnvExisting =
      (Except.ok false, (⟨some c6Pool, 100, 120, some 20⟩ : RebState),
       rangeSizingActs (1 / 20) 25) := by
  have hcalc : meteoraRangeIntervalCalc (1 / 20) 25 = 20 := by
    norm_num [meteoraRangeIntervalCalc, rangeIntervalUnclamped,
      METERORA_MAX_BINS_PER_SIDE]
  have hreb : rebalancePosition (some c6Pool) c6LoadEnvEmpty.rebalEnv =
      (Except.ok (), c6Pacts) := by
    norm_num [c6LoadEnvEmpty, rebalancePosition, swapActions, swapDecision,
      targetAssetABalance, targetAssetBBalance, usableAmount,
      show isSolSymbol "TOK" = false from by decide,
      show isSolSymbol "USDC" = false from by decide, c6Pool, c6RebalEnv,
      c6Pacts]
  have hadd : addLiquidity
      { RebState.initial with
        poolDetails := some c6Pool,
        meteoraRangeInterval :=
          some (meteoraRangeIntervalCalc c6LoadEnvEmpty.rangeRelative
            c6Pool.binStep) }
      c6LoadEnvEmpty.addEnv = (Except.ok (), c6FinalState, c6Aacts) := by
    norm_num [RebState.initial, addLiquidity, c6LoadEnvEmpty, c6AddEnv,
      verifyNativeTokenBufferForPositions, NATIVE_TOKEN_FEE_BUFFER,
      retryGetPositions, retryGetPositionsGo, usableAmount,
      show isSolSymbol "TOK" = false from by decide,
      show isSolSymbol "USDC" = false from by decide, c6Pool, c6FinalState,
      c6Aacts, hcalc, meteoraRangeIntervalCalc, rangeIntervalUnclamped,
      METERORA_MAX_BINS_PER_SIDE]
  constructor
  · have h := ((c6_load_initial_state RebState.initial c6LoadEnvEmpty c6Pool
      rfl).1 rfl () c6Pacts () c6FinalState c6Aacts hreb hadd).1
    simpa [c6LoadEnvEmpty, c6Pool] using h
  · have h := (c6_load_initial_state RebState.initial c6LoadEnvExisting c6Pool
      rfl).2 ⟨100, 120⟩ [] rfl
    have hstate : ({ RebState.initial with
        poolDetails := some c6Pool,
        meteoraRangeInterval :=
          some (meteoraRangeIntervalCalc c6LoadEnvExisting.rangeRelative
            c6Pool.binStep),
        currLowerBinId := (100 : Int), currUpperBinId := (120 : Int) } :
        RebState) = (⟨some c6Pool, 100, 120, some 20⟩ : RebState) := by
      norm_num [RebState.initial, c6LoadEnvExisting, c6Pool, hcalc,
        meteoraRangeIntervalCalc, rangeIntervalUnclamped,
        METERORA_MAX_BINS_PER_SIDE]
    rw [hstate] at h
    simpa [c6LoadEnvExisting, c6Pool] using h

/-- Helper: when the buffer check passes, the add succeeds and the 10-attempt
read-back returns a non-empty list, addLiquidity overwrites the cached bin
range with the first returned position's bounds. -/
theorem addLiquidity_readback (s : RebState) (env : AddEnv) (d : PoolDetails)
    (hd : s.poolDetails = some d)
    (hbuf : ¬ env.native < NATIVE_TOKEN_FEE_BUFFER)
    (haddr : env.addResult = Except.ok ())
    (pos : PositionData) (rest : List PositionData)
    (hread : retryGetPositions env.positionsFn 10 = Except.ok (pos :: rest)) :
    addLiquidity s env =
      (Except.ok (),
       { s with currLowerBinId := pos.lowerBinId,
                currUpperBinId := pos.upperBinId },
       [Action.addLiquidityExec (usableAmount d.assetASymbol env.rawA)
          (usableAmount d.assetBSymbol env.rawB) s.meteoraRangeInterval,
        Action.logBalances LogTag.liquidityAdded
          (usableAmount d.assetASymbol env.rawA)
          (usableAmount d.assetBSymbol env.rawB)]) := by
  unfold addLiquidity verifyNativeTokenBufferForPositions
  rw [if_neg hbuf]
  simp only [hd, haddr, hread]

/-- C7 counterexample: a relocation whose every step succeeds but whose
post-add position query returns the empty list on all 10 attempts returns
"changed" while leaving the cached PositionRange at its old value (100 to
120) instead of overwriting it with fresh ledger-reported bounds. -/
theorem c7_position_range_counterexample :
    (rebalance c7State c7Env).1 = Except.ok true ∧
    (rebalance c7State c7Env).2.1 = c7State ∧
    retryGetPositions c7Env.addEnv.positionsFn 10 = Except.ok [] := by
  refine ⟨?_, ?_, rfl⟩ <;>
  norm_num [rebalance, rebalanceBody, removeLiquidity, rebalancePosition,
    addLiquidity, verifyNativeTokenBufferForPositions, retryGetPositions,
    retryGetPositionsGo, usableAmount, swapActions, swapDecision,
    targetAssetABalance, targetAssetBBalance, NATIVE_TOKEN_FEE_BUFFER,
    c7State, c7Env, c7Pool, c7RebalEnv, c7AddEnv, c7LoadEnv,
    show isSolSymbol "TOK" = false from by decide,
    show isSolSymbol "USDC" = false from by decide]

/-- C7 amended: after a relocation that returns "changed" and whose post-add
10-attempt position query returns a non-empty list, the cached PositionRange
is overwritten wholesale with the first returned position's ledger-reported
bounds; when that query comes back empty, the old cached range is kept (a
console warning only) while "changed" is still returned. -/
theorem c7_position_range_amended (s : RebState) (env : CycleEnv)
    (bin : ActiveBin) (hbin : env.activeBin = Except.ok bin)
    (hout : bin.binId < s.currLowerBinId ∨ s.currUpperBinId < bin.binId)
    (d : PoolDetails) (hd : s.poolDetails = some d)
    (ru : Unit) (racts : List Action)
    (hrem : removeLiquidity s.poolDetails env.removeEnv = (Except.ok ru, racts))
    (pu : Unit) (pacts : List Action)
    (hreb : rebalancePosition s.poolDetails env.rebalEnv = (Except.ok pu, pacts))
    (hbuf : ¬ env.nativeBuffer < NATIVE_TOKEN_FEE_BUFFER)
    (hbuf2 : ¬ env.addEnv.native < NATIVE_TOKEN_FEE_BUFFER)
    (haddr : env.addEnv.addResult = Except.ok ())
    (pos : PositionData) (rest : List PositionData)
    (hread : retryGetPositions env.addEnv.positionsFn 10 =
      Except.ok (pos :: rest)) :
    rebalance s env =
      (Except.ok true,
       { s with currLowerBinId := pos.lowerBinId,
                currUpperBinId := pos.upperBinId },
       Action.logAction
           (LogTag.outOfRange bin.binId s.currLowerBinId s.currUpperBinId) ::
         (racts ++ pacts ++
          [Action.addLiquidityExec (usableAmount d.assetASymbol env.addEnv.rawA)
             (usableAmount d.assetBSymbol env.addEnv.rawB)
             s.meteoraRangeInterval,
           Action.logBalances LogTag.liquidityAdded
             (usableAmount d.assetASymbol env.addEnv.rawA)
             (usableAmount d.assetBSymbol env.addEnv.rawB)])) := by
  have hadd := addLiquidity_readback s env.addEnv d hd hbuf2 haddr pos rest hread
  unfold rebalance rebalanceBody
  rw [hbin]
  simp [hout, hrem, hreb, hadd, verifyNativeTokenBufferForPositions, hbuf]

/-- Witness for C7 amended: read-back finds the new position at 125 to 165
and the cached range is overwritten accordingly. -/
theorem c7_position_range_amended_witness :
    rebalance c7State c7WitEnv =
      (Except.ok true, (⟨some c7Pool, 125, 165, some 20⟩ : RebState),
       Action.logAction (LogTag.outOfRange 130 100 120) ::
         ([Action.removeLiquidityExec,
           Action.logBalances LogTag.liquidityRemoved 0 0,
           Action.logBalances LogTag.rewardsClaimed 0 0,
           Action.logAction (LogTag.withdrew 0 0)] ++
          [Action.logPrice 2, Action.logBalances LogTag.totalBalances 0 0] ++
          [Action.addLiquidityExec 0 0 (some 20),
           Action.logBalances LogTag.liquidityAdded 0 0])) := by
  have hrem : removeLiquidity c7State.poolDetails c7WitEnv.removeEnv =
      (Except.ok (),
       [Action.removeLiquidityExec,
        Action.logBalances LogTag.liquidityRemoved 0 0,
        Action.logBalances LogTag.rewardsClaimed 0 0,
        Action.logAction (LogTag.withdrew 0 0)]) := by
    norm_num [c7State, c7WitEnv, removeLiquidity, usableAmount,
      show isSolSymbol "TOK" = false from by decide,
      show isSolSymbol "USDC" = false from by decide, c7Pool]
  have hreb : rebalancePosition c7State.poolDetails c7WitEnv.rebalEnv =
      (Except.ok (),
       [Action.logPrice 2, Action.logBalances LogTag.totalBalances 0 0]) := by
    norm_num [c7State, c7WitEnv, rebalancePosition, swapActions, swapDecision,
      targetAssetABalance, targetAssetBBalance, usableAmount,
      show isSolSymbol "TOK" = false from by decide,
      show isSolSymbol "USDC" = false from by decide, c7Pool, c7WitRebalEnv]
  have h := c7_position_range_amended c7State c7WitEnv ⟨130, 2⟩ rfl
    (by norm_num [c7State]) c7Pool rfl () _ hrem () _ hreb
    (by norm_num [c7WitEnv, NATIVE_TOKEN_FEE_BUFFER])
    (by norm_num [c7WitEnv, c7WitAddEnv, NATIVE_TOKEN_FEE_BUFFER])
    rfl ⟨125, 165⟩ [] rfl
  simpa [c7State, c7Pool, c7WitEnv, c7WitAddEnv, usableAmount,
    show isSolSymbol "TOK" = false from by decide,
    show isSolSymbol "USDC" = false from by decide] using h

/-- C5 counterexample: the active-bin read fails with a message mentioning
"No positions found in this pool", the catch clause re-runs
loadInitialState, and that re-run's own failure (pool details unresolved)
propagates out of rebalance() uncaught instead of being converted to a false
return. -/
theorem c5_error_propagation_counterexample :
    (rebalance RebState.initial c5Env).1 =
      Except.error Err.poolDetailsFailed := by
  norm_num [rebalance, rebalanceBody, c5Env, Err.mentionsNoPositions,
    loadInitialState, RebState.initial]

/-- C5 amended: every failure raised inside the try body of a rebalance
cycle is caught at the cycle boundary, alerted, and converted to a false
return; when the caught error's message signals that no position exists,
loadInitialState is re-run first and the cycle still returns false if that
re-run succeeds — but a failure raised by the re-run itself propagates out
of rebalance uncaught. -/
theorem c5_error_handling_amended (s : RebState) (env : CycleEnv) (e : Err)
    (s2 : RebState) (acts : List Action)
    (hbody : rebalanceBody s env = (Except.error e, s2, acts)) :
    (e.mentionsNoPositions = false →
      rebalance s env =
        (Except.ok false, s2,
         acts ++ [Action.alert Sev.error (AlertMsg.rebalanceError e)])) ∧
    (e.mentionsNoPositions = true →
      (∀ (b : Bool) (s3 : RebState) (acts2 : List Action),
        loadInitialState s2 env.loadEnv = (Except.ok b, s3, acts2) →
        rebalance s env =
          (Except.ok false, s3,
           acts ++ acts2 ++
             [Action.alert Sev.error (AlertMsg.rebalanceError e)])) ∧
      (∀ (e2 : Err) (s3 : RebState) (acts2 : List Action),
        loadInitialState s2 env.loadEnv = (Except.error e2, s3, acts2) →
        rebalance s env = (Except.error e2, s3, acts ++ acts2))) := by
  constructor
  · intro hno
    unfold rebalance
    rw [hbody]
    simp [hno]
  · intro hyes
    constructor
    · intro b s3 acts2 hload
      unfold rebalance
      rw [hbody]
      simp [hyes, hload]
    · intro e2 s3 acts2 hload
      unfold rebalance
      rw [hbody]
      simp [hyes, hload]

/-- Witness for C5 amended: a generic active-bin failure is alerted and the
cycle returns false with the state untouched. -/
theorem c5_error_handling_amended_witness :
    rebalance RebState.initial c5WitEnv =
      (Except.ok false, RebState.initial,
       [Action.alert Sev.error
          (AlertMsg.rebalanceError (Err.ext ⟨false, false, 7⟩))]) := by
  have hbody : rebalanceBody RebState.initial c5WitEnv =
      (Except.error (Err.ext ⟨false, false, 7⟩), RebState.initial, []) := by
    norm_num [rebalanceBody, c5WitEnv]
  have h := (c5_error_handling_amended RebState.initial c5WitEnv
    (Err.ext ⟨false, false, 7⟩) RebState.initial [] hbody).1 rfl
  simpa using h

end Rebal
